import Mathlib

/-!
Verification of the spotify-tracker synchronization engine.

The repository is a Discord bot that mirrors the current Spotify playback
state into a single status message.  The source is JavaScript; this file is
a shallow embedding of the parts of the code the claims speak about:

* the smart-capitalization text transform (smartCase in src/index.js lines
  27-31, smartLowercase in src/unnamed/part_000 lines 15-22);
* the credential cache (refreshSpotifyToken / getSpotifyAccessToken,
  src/index.js lines 33-61);
* the playback-state fetcher (fetchSpotifyData, src/index.js lines 63-91,
  and the retrying variant in src/unnamed/part_001 lines 42-58);
* the message reconciler (updateSpotifyMessage, src/index.js lines 123-152,
  scheduleNextUpdate lines 154-160, and the variant in src/unnamed/part_000
  lines 129-140);
* the adaptive poll interval of src/unnamed/part_000 (lines 91-148).

JavaScript strings are modelled as lists of UTF-16 code units (naturals);
the case transforms in the source only distinguish ASCII letters (the regex
in smartLowercase is [^A-Za-z]), so toUpperCase / toLowerCase are modelled
on the ASCII range and leave every other code unit fixed.  Times are
naturals (milliseconds, as Date.now()).  Network responses are explicit
inputs; thrown JS exceptions are Except values.
-/

namespace SpotifyTracker

/-- A JavaScript string: a list of UTF-16 code units. -/
abbrev JStr := List Nat

/-- ASCII uppercase letter test (A-Z, code units 65-90). -/
def isUpperAlpha (c : Nat) : Bool := decide (65 ≤ c) && decide (c ≤ 90)

/-- ASCII lowercase letter test (a-z, code units 97-122). -/
def isLowerAlpha (c : Nat) : Bool := decide (97 ≤ c) && decide (c ≤ 122)

/-- Letter test, the complement of the regex [^A-Za-z] used in smartLowercase. -/
def isAlpha (c : Nat) : Bool := isUpperAlpha c || isLowerAlpha c

/-- Code-unit uppercasing, as String.prototype.toUpperCase acts on ASCII. -/
def toUpperCh (c : Nat) : Nat := if isLowerAlpha c then c - 32 else c

/-- Code-unit lowercasing, as String.prototype.toLowerCase acts on ASCII. -/
def toLowerCh (c : Nat) : Nat := if isUpperAlpha c then c + 32 else c

/-- str.toUpperCase(). -/
def toUpperStr (s : JStr) : JStr := s.map toUpperCh

/-- str.toLowerCase(). -/
def toLowerStr (s : JStr) : JStr := s.map toLowerCh

/-- Array.prototype.join with separator ", " (code units 44, 32), as used for
the artist list in fetchSpotifyData (src/index.js line 83). -/
def joinComma (names : List JStr) : JStr := (names.intersperse [44, 32]).flatten

/-- smartCase, src/index.js lines 27-31:
if (!text) return text; if (text === text.toUpperCase()) return text;
return text.toLowerCase(). -/
def smartCase (text : JStr) : JStr :=
  if text = [] then text
  else if text = toUpperStr text then text
  else toLowerStr text

/-- smartLowercase, src/unnamed/part_000 lines 15-22:
if (!str) return ""; const letters = str.replace(/[^A-Za-z]/g, "");
if (letters && letters === letters.toUpperCase()) return str;
return str.toLowerCase(). -/
def smartLowercase (str : JStr) : JStr :=
  if str = [] then []
  else
    let letters := str.filter isAlpha
    if letters ≠ [] ∧ letters = toUpperStr letters then str
    else toLowerStr str

/-! ## Credential cache (src/index.js lines 22-23 and 33-61) -/

/-- The module-level token state of src/index.js lines 22-23:
let spotifyAccessToken = null; let spotifyAccessTokenExpiresAt = 0. -/
structure TokenCache where
  spotifyAccessToken : Option String
  spotifyAccessTokenExpiresAt : Nat
deriving DecidableEq

/-- The initial cache state (token null, expiry 0). -/
def initialTokenCache : TokenCache :=
  { spotifyAccessToken := none, spotifyAccessTokenExpiresAt := 0 }

/-- Body of a successful token-endpoint response: access_token, expires_in. -/
structure RefreshResp where
  access_token : String
  expires_in : Option Nat
deriving DecidableEq

/-- The JavaScript or-default (data.expires_in || 3600): absent and 0 are falsy. -/
def ttlOf (d : RefreshResp) : Nat :=
  match d.expires_in with
  | some n => if n = 0 then 3600 else n
  | none => 3600

/-- refreshSpotifyToken, src/index.js lines 33-54.  The exchange response is
an explicit input; a non-ok response throws (line 48) and leaves the cache
untouched.  On success the cache is overwritten (lines 51-52) with expiry
now + ttl * 1000 * 0.9 milliseconds, written here as now + ttl * 900. -/
def refreshSpotifyToken (now : Nat) (resp : Except String RefreshResp)
    (st : TokenCache) : TokenCache × Except String String :=
  match resp with
  | .error e => (st, .error e)
  | .ok d =>
      ({ spotifyAccessToken := some d.access_token,
         spotifyAccessTokenExpiresAt := now + ttlOf d * 900 }, .ok d.access_token)

/-- JavaScript falsiness of the token variable (!spotifyAccessToken):
null and the empty string are falsy. -/
def tokenFalsy : Option String → Bool
  | none => true
  | some s => decide (s = "")

/-- getSpotifyAccessToken, src/index.js lines 56-61: refresh if
(!spotifyAccessToken || Date.now() > spotifyAccessTokenExpiresAt), else
return the cached token.  The third component counts the refresh exchanges
this call performs (0 or 1). -/
def getSpotifyAccessToken (now : Nat) (resp : Except String RefreshResp)
    (st : TokenCache) : TokenCache × Except String String × Nat :=
  if tokenFalsy st.spotifyAccessToken
      || decide (st.spotifyAccessTokenExpiresAt < now) then
    let p := refreshSpotifyToken now resp st
    (p.1, p.2, 1)
  else
    (st, .ok (st.spotifyAccessToken.getD ""), 0)

/-! Concurrency model for the credential cache.  JavaScript is single
threaded: a call to getSpotifyAccessToken runs its cache test (line 57)
synchronously, and when it decides to refresh, the exchange suspends at the
await and the cache write of lines 51-52 runs only once the network response
arrives.  A set of overlapping callers is therefore a sequence of atomic
events: cache tests and exchange completions. -/

/-- An atomic event of overlapping getSpotifyAccessToken calls. -/
inductive CacheEvent
  /-- A caller enters getSpotifyAccessToken and runs the test of line 57
  against the current cache; on an unusable cache it starts its own refresh
  exchange. -/
  | test
  /-- The response of one in-flight exchange arrives and refreshSpotifyToken
  writes the cache (lines 51-52). -/
  | complete (d : RefreshResp)

/-- Cache together with the number of refresh exchanges started so far. -/
structure CacheRun where
  cache : TokenCache
  exchanges : Nat
deriving DecidableEq

/-- Effect of one event on the cache run. -/
def cacheStep (now : Nat) (st : CacheRun) : CacheEvent → CacheRun
  | .test =>
      if tokenFalsy st.cache.spotifyAccessToken
          || decide (st.cache.spotifyAccessTokenExpiresAt < now) then
        { st with exchanges := st.exchanges + 1 }
      else st
  | .complete d =>
      { st with cache := (refreshSpotifyToken now (.ok d) st.cache).1 }

/-- Run a sequence of events from the initial (expired) cache. -/
def runCache (now : Nat) (evts : List CacheEvent) : CacheRun :=
  evts.foldl (cacheStep now) { cache := initialTokenCache, exchanges := 0 }

/-! ## Playback-state fetcher (src/index.js lines 63-91) -/

/-- One artist object of the status response. -/
structure SpotifyArtist where
  name : JStr
deriving DecidableEq

/-- The item of the status response: name, artists, album images (urls),
duration_ms, and the track id read by part_000. -/
structure SpotifyItem where
  name : JStr
  artists : List SpotifyArtist
  albumImages : List JStr
  duration_ms : Nat
  id : JStr
deriving DecidableEq

/-- The JSON body of a 200 status response: item, progress_ms, is_playing
(and the timestamp field read by part_000).  A null body or missing item is
modelled as item = none, matching the !data || !data.item test of line 74. -/
structure PlayerResponse where
  item : Option SpotifyItem
  progress_ms : Nat
  is_playing : Bool
  timestamp : Nat
deriving DecidableEq

/-- A response of the currently-playing endpoint as src/index.js sees it. -/
inductive StatusResp
  /-- HTTP 204, no content. -/
  | noContent
  /-- A non-ok HTTP status (line 71 throws). -/
  | httpError (code : Nat)
  /-- HTTP 200 with a JSON body. -/
  | body (d : PlayerResponse)
deriving DecidableEq

/-- The normalized playback value built by fetchSpotifyData, lines 81-90. -/
structure SpotifyData where
  track : JStr
  artist : JStr
  albumArt : Option JStr
  progress_ms : Nat
  duration_ms : Nat
  started_at : Nat
  ends_at : Nat
  is_playing : Bool
deriving DecidableEq

/-- fetchSpotifyData, src/index.js lines 63-91: 204 maps to null (idle),
non-ok throws, a body without item maps to null, and otherwise the
normalized value is built with started_at = now - progress_ms, the artists
joined with a comma (line 83) and images[0]?.url || null for the art. -/
def fetchSpotifyData (now : Nat) (resp : StatusResp) :
    Except String (Option SpotifyData) :=
  match resp with
  | .noContent => .ok none
  | .httpError _ => .error "Failed to fetch Spotify currently playing"
  | .body d =>
      match d.item with
      | none => .ok none
      | some item =>
          .ok (some
            { track := item.name
              artist := joinComma (item.artists.map SpotifyArtist.name)
              albumArt := item.albumImages.head?
              progress_ms := d.progress_ms
              duration_ms := item.duration_ms
              started_at := now - d.progress_ms
              ends_at := now - d.progress_ms + item.duration_ms
              is_playing := d.is_playing })

/-! ## Message reconciliation (src/index.js lines 93-160) -/

/-- The state-determined content of createEmbed (src/index.js lines 93-121):
either the idle embed of lines 94-98 or the playing embed whose description
(line 113) shows smartCase of the track and of the joined artist string.
The time fields are numeric formatting and not modelled. -/
inductive EmbedView
  | idleEmbed
  | playingEmbed (track : JStr) (artist : JStr)
deriving DecidableEq

/-- createEmbed, src/index.js lines 93-121. -/
def createEmbed : Option SpotifyData → EmbedView
  | none => .idleEmbed
  | some d => .playingEmbed (smartCase d.track) (smartCase d.artist)

/-- A Discord message id. -/
abbrev MsgId := Nat

/-- A messaging-surface failure: the message is gone (unknown message), or
any other error (network, permissions, rate limit, ...). -/
inductive MessagingError
  | not_found
  | other
deriving DecidableEq

/-- The responses of the messaging surface for one reconcile cycle:
channel.messages.fetch(messageId), msg.edit, channel.send. -/
structure SurfaceEnv where
  messagesFetch : Except MessagingError Unit
  msgEdit : Except MessagingError Unit
  channelSend : Except MessagingError MsgId

/-- An exception inside one cycle of updateSpotifyMessage. -/
inductive CycleError
  | fetchFailed (msg : String)
  | messaging (e : MessagingError)

/-- The observable messaging effects of one cycle: the edit performed, if
any, and the message newly sent, if any. -/
structure CycleEffects where
  edited : Option (MsgId × EmbedView)
  sent : Option (MsgId × EmbedView)
deriving DecidableEq

/-- No messaging effect. -/
def noEffects : CycleEffects := { edited := none, sent := none }

/-- .catch(() => null) applied to channel.messages.fetch (lines 129 and
139): every failure, not-found or otherwise, becomes null. -/
def catchToNull : Except MessagingError Unit → Option Unit
  | .ok _ => some ()
  | .error _ => none

/-- The try-block of updateSpotifyMessage, src/index.js lines 124-148, with
the fetch outcome and the surface responses passed explicitly.  The result
pairs the effects with the function result: ok (some id) for the return of
line 148, ok none for the bare returns of lines 127-133, error for an
exception escaping to the catch of line 149. -/
def updateSpotifyMessageTry (fetchOutcome : Except String (Option SpotifyData))
    (env : SurfaceEnv) (messageId : Option MsgId) :
    CycleEffects × Except CycleError (Option MsgId) :=
  match fetchOutcome with
  | .error e => (noEffects, .error (.fetchFailed e))
  | .ok none =>
      match messageId with
      | none => (noEffects, .ok none)
      | some mid =>
          match catchToNull env.messagesFetch with
          | none => (noEffects, .ok none)
          | some _ =>
              match env.msgEdit with
              | .ok _ =>
                  ({ edited := some (mid, createEmbed none), sent := none }, .ok none)
              | .error e => (noEffects, .error (.messaging e))
  | .ok (some d) =>
      match messageId with
      | some mid =>
          match catchToNull env.messagesFetch with
          | some _ =>
              match env.msgEdit with
              | .ok _ =>
                  ({ edited := some (mid, createEmbed (some d)), sent := none },
                    .ok (some mid))
              | .error e => (noEffects, .error (.messaging e))
          | none =>
              match env.channelSend with
              | .ok nid =>
                  ({ edited := none, sent := some (nid, createEmbed (some d)) },
                    .ok (some nid))
              | .error e => (noEffects, .error (.messaging e))
      | none =>
          match env.channelSend with
          | .ok nid =>
              ({ edited := none, sent := some (nid, createEmbed (some d)) },
                .ok (some nid))
          | .error e => (noEffects, .error (.messaging e))

/-- updateSpotifyMessage, src/index.js lines 123-152: the try-block wrapped
in the catch that logs the error and returns undefined (none). -/
def updateSpotifyMessage (fetchOutcome : Except String (Option SpotifyData))
    (env : SurfaceEnv) (messageId : Option MsgId) : CycleEffects × Option MsgId :=
  let r := updateSpotifyMessageTry fetchOutcome env messageId
  (r.1, match r.2 with | .ok v => v | .error _ => none)

/-- The id threading of scheduleNextUpdate, src/index.js line 158:
the next cycle receives newMessageId || messageId. -/
def scheduleNextUpdateId (returned : Option MsgId) (messageId : Option MsgId) :
    Option MsgId :=
  match returned with
  | some nid => some nid
  | none => messageId

/-- A concrete playing state (track h, artist j, one second into a
two-second track), used to instantiate reconcile scenarios. -/
def samplePlayingData : SpotifyData :=
  { track := [104]
    artist := [106]
    albumArt := none
    progress_ms := 1000
    duration_ms := 2000
    started_at := 0
    ends_at := 2000
    is_playing := true }

/-! ## part_000: adaptive scheduler and its reconcile
(src/unnamed/part_000 lines 91-148) -/

/-- The catch branch of part_000 lines 129-140 and the first-run branch of
lines 137-140: send a new message and store its id; a send failure
propagates to the outer catch and leaves the stored id unchanged. -/
def p0SendNew (stored : Option MsgId) (channelSend : Except MessagingError MsgId) :
    Option MsgId × Option MsgId × Bool :=
  match channelSend with
  | .ok nid => (some nid, some nid, false)
  | .error _ => (stored, none, true)

/-- The message part of updateSpotifyEmbed, src/unnamed/part_000 lines
129-140 (reached only when a track is playing).  Returns the stored id
after the cycle, the id of the newly sent message if one was sent, and
whether an exception escaped to the outer catch. -/
def updateSpotifyEmbedReconcile (storedMessageId : Option MsgId)
    (messagesFetch : Except MessagingError Unit)
    (msgEdit : Except MessagingError Unit)
    (channelSend : Except MessagingError MsgId) :
    Option MsgId × Option MsgId × Bool :=
  match storedMessageId with
  | some mid =>
      match messagesFetch with
      | .ok _ =>
          match msgEdit with
          | .ok _ => (some mid, none, false)
          | .error _ => p0SendNew (some mid) channelSend
      | .error _ => p0SendNew (some mid) channelSend
  | none => p0SendNew none channelSend

/-- One cycle outcome of updateSpotifyEmbed as it affects the poll interval
(src/unnamed/part_000 lines 94-148). -/
inductive CycleOutcome
  /-- The cycle threw before reaching the interval update (token refresh or
  status fetch failed): only the catch growth of line 145 runs. -/
  | fetchError
  /-- Nothing is playing (no data, is_playing false, or no item): the early
  returns of lines 99-105 leave the interval untouched. -/
  | notPlaying
  /-- A track is playing: the interval update of lines 107-113 ran and the
  message work completed. -/
  | playing (trackId : JStr)
  /-- A track is playing, the interval update of lines 107-113 ran, but the
  channel fetch or message send then threw, so the catch growth of line 145
  also ran on top of it. -/
  | playingThenError (trackId : JStr)
deriving DecidableEq

/-- The scheduler variables of src/unnamed/part_000 lines 91-92. -/
structure SchedState where
  currentInterval : Nat
  lastTrackId : Option JStr
deriving DecidableEq

/-- let currentInterval = 5000 (line 91); let lastTrackId = null (line 92). -/
def initialSchedState : SchedState :=
  { currentInterval := 5000, lastTrackId := none }

/-- The interval update of lines 107-113: same track grows the interval by
1000 capped at 15000; a new track resets it to 5000 and records the id. -/
def playingUpdate (st : SchedState) (tid : JStr) : SchedState :=
  if st.lastTrackId = some tid then
    { st with currentInterval := min (st.currentInterval + 1000) 15000 }
  else
    { currentInterval := 5000, lastTrackId := some tid }

/-- The catch growth of line 145: interval + 5000 capped at 30000. -/
def errorUpdate (st : SchedState) : SchedState :=
  { st with currentInterval := min (st.currentInterval + 5000) 30000 }

/-- How one cycle of updateSpotifyEmbed transforms the scheduler state. -/
def updateSpotifyEmbedStep (st : SchedState) : CycleOutcome → SchedState
  | .fetchError => errorUpdate st
  | .notPlaying => st
  | .playing tid => playingUpdate st tid
  | .playingThenError tid => errorUpdate (playingUpdate st tid)

/-- k consecutive playing cycles of the same track. -/
def playingIter (st : SchedState) (tid : JStr) : Nat → SchedState
  | 0 => st
  | k + 1 => updateSpotifyEmbedStep (playingIter st tid k) (.playing tid)

/-- k consecutive failing cycles. -/
def failIter (st : SchedState) : Nat → SchedState
  | 0 => st
  | k + 1 => updateSpotifyEmbedStep (failIter st k) .fetchError

/-! ## part_001: the retrying fetcher (src/unnamed/part_001 lines 42-80) -/

/-- A response of the currently-playing endpoint as part_001 sees it. -/
inductive P1Resp
  /-- HTTP 204 (line 51). -/
  | noContent
  /-- HTTP 401 (line 52). -/
  | unauthorized
  /-- Any other non-ok status (line 58 throws). -/
  | httpError
  /-- HTTP 200 with a JSON body. -/
  | body (d : PlayerResponse)
deriving DecidableEq

/-- The playback value built by part_001 fetchSpotifyData lines 63-79, with
smartCapitalization at its default true, so smartLowercase is applied to the
track name and to the joined artist names.  The formatted time strings and
the image url are presentation details not modelled. -/
structure P1Data where
  track : JStr
  artist : JStr
  startMs : Nat
  endMs : Nat
deriving DecidableEq

/-- Build the part_001 playback value from a 200 body (lines 63-79). -/
def p1DataOf (now : Nat) (d : PlayerResponse) (item : SpotifyItem) : P1Data :=
  { track := smartLowercase item.name
    artist := smartLowercase (joinComma (item.artists.map SpotifyArtist.name))
    startMs := now - d.progress_ms
    endMs := now - d.progress_ms + item.duration_ms }

/-- The retry recursion of part_001 fetchSpotifyData (lines 47-61): each
entry consumes the next endpoint response; a 401 refreshes the token and
re-enters the whole function (line 55).  Returns the number of refresh
exchanges performed by the 401 branches together with the eventual result;
none means the responses ran out with the call still retrying. -/
def fetchSpotifyDataLoop (now : Nat) :
    List P1Resp → Nat × Option (Except String (Option P1Data))
  | [] => (0, none)
  | .noContent :: _ => (0, some (.ok none))
  | .unauthorized :: rest =>
      let r := fetchSpotifyDataLoop now rest
      (r.1 + 1, r.2)
  | .httpError :: _ => (0, some (.error "Spotify API error"))
  | .body d :: _ =>
      (0, some (.ok
        (match d.is_playing, d.item with
          | false, _ => none
          | true, none => none
          | true, some item => some (p1DataOf now d item))))

/-- part_001 fetchSpotifyData entry, lines 43-45: one extra refresh up front
when no token is cached, then the retry recursion. -/
def fetchSpotifyDataP1 (tokenCached : Bool) (now : Nat) (resps : List P1Resp) :
    Nat × Option (Except String (Option P1Data)) :=
  let r := fetchSpotifyDataLoop now resps
  (if tokenCached then r.1 else r.1 + 1, r.2)

/-! Auxiliary lemmas about the case transforms. -/

theorem toUpperCh_eq_self_of_not_lower {c : Nat} (h : isLowerAlpha c = false) :
    toUpperCh c = c := by
  simp [toUpperCh, h]

theorem toUpperCh_ne_self_of_lower {c : Nat} (h : isLowerAlpha c = true) :
    toUpperCh c ≠ c := by
  have hb : 97 ≤ c ∧ c ≤ 122 := by simpa [isLowerAlpha] using h
  unfold toUpperCh
  rw [if_pos h]
  omega

theorem toLowerCh_eq_self_of_not_upper {c : Nat} (h : isUpperAlpha c = false) :
    toLowerCh c = c := by
  simp [toLowerCh, h]

theorem isUpperAlpha_toLowerCh (c : Nat) : isUpperAlpha (toLowerCh c) = false := by
  by_cases h : isUpperAlpha c = true
  · have hb : 65 ≤ c ∧ c ≤ 90 := by simpa [isUpperAlpha] using h
    unfold toLowerCh
    rw [if_pos h]
    simp only [isUpperAlpha]
    have hgt : ¬ (c + 32 ≤ 90) := by omega
    simp [hgt]
  · have hf : isUpperAlpha c = false := by simpa using h
    rw [toLowerCh_eq_self_of_not_upper hf]
    exact hf

theorem isLowerAlpha_mem_toLowerStr {s : JStr} {c : Nat}
    (hc : c ∈ s) (h : isLowerAlpha c = true) : c ∈ toLowerStr s := by
  have hb : 97 ≤ c ∧ c ≤ 122 := by simpa [isLowerAlpha] using h
  have hup : isUpperAlpha c = false := by
    simp only [isUpperAlpha]
    simp
    omega
  have hfix : toLowerCh c = c := toLowerCh_eq_self_of_not_upper hup
  exact hfix ▸ List.mem_map_of_mem toLowerCh hc

theorem map_eq_self_of_fixed {f : Nat → Nat} {s : JStr}
    (h : ∀ c ∈ s, f c = c) : s.map f = s := by
  induction s with
  | nil => rfl
  | cons a l ih =>
      simp only [List.map_cons, List.cons.injEq]
      exact ⟨h a (List.mem_cons_self a l), ih fun c hc => h c (List.mem_cons_of_mem a hc)⟩

theorem fixed_of_eq_map {f : Nat → Nat} {s : JStr}
    (h : s = s.map f) : ∀ c ∈ s, f c = c := by
  induction s with
  | nil => intro c hc; cases hc
  | cons a l ih =>
      simp only [List.map_cons, List.cons.injEq] at h
      intro c hc
      rcases List.mem_cons.mp hc with rfl | hc
      · exact h.1.symm
      · exact ih h.2 c hc

theorem toUpperStr_eq_self_of_no_lower {s : JStr}
    (h : ∀ c ∈ s, isLowerAlpha c = false) : toUpperStr s = s :=
  map_eq_self_of_fixed fun c hc => toUpperCh_eq_self_of_not_lower (h c hc)

theorem toUpperStr_ne_self_of_lower {s : JStr} {c : Nat}
    (hc : c ∈ s) (h : isLowerAlpha c = true) : s ≠ toUpperStr s := by
  intro heq
  exact toUpperCh_ne_self_of_lower h (fixed_of_eq_map heq c hc)

theorem toLowerStr_idem (s : JStr) : toLowerStr (toLowerStr s) = toLowerStr s := by
  simp only [toLowerStr, List.map_map]
  apply List.map_congr_left
  intro c _
  exact toLowerCh_eq_self_of_not_upper (isUpperAlpha_toLowerCh c)

theorem smartCase_of_no_lower {s : JStr}
    (h : ∀ c ∈ s, isLowerAlpha c = false) : smartCase s = s := by
  unfold smartCase
  by_cases hnil : s = []
  · simp [hnil]
  · rw [if_neg hnil, if_pos (toUpperStr_eq_self_of_no_lower h).symm]

theorem smartCase_of_lower {s : JStr} {c : Nat}
    (hc : c ∈ s) (h : isLowerAlpha c = true) : smartCase s = toLowerStr s := by
  unfold smartCase
  have hnil : s ≠ [] := by intro he; subst he; cases hc
  rw [if_neg hnil, if_neg (toUpperStr_ne_self_of_lower hc h)]

theorem smartLowercase_of_no_lower {s : JStr}
    (h : ∀ c ∈ s, isLowerAlpha c = false) : smartLowercase s = s := by
  unfold smartLowercase
  by_cases hnil : s = []
  · simp [hnil]
  · rw [if_neg hnil]
    by_cases hlet : s.filter isAlpha = []
    · rw [if_neg (by simp [hlet])]
      apply map_eq_self_of_fixed
      intro c hc
      apply toLowerCh_eq_self_of_not_upper
      have : isAlpha c = false := by
        by_contra hca
        simp only [Bool.not_eq_false] at hca
        have : c ∈ s.filter isAlpha := List.mem_filter.mpr ⟨hc, hca⟩
        simp [hlet] at this
      simp only [isAlpha, Bool.or_eq_false_iff] at this
      exact this.1
    · rw [if_pos]
      constructor
      · exact hlet
      · refine (toUpperStr_eq_self_of_no_lower ?_).symm
        intro c hc
        exact h c (List.mem_of_mem_filter hc)

theorem smartLowercase_of_lower {s : JStr} {c : Nat}
    (hc : c ∈ s) (h : isLowerAlpha c = true) : smartLowercase s = toLowerStr s := by
  unfold smartLowercase
  have hnil : s ≠ [] := by intro he; subst he; cases hc
  rw [if_neg hnil]
  have hmem : c ∈ s.filter isAlpha := by
    refine List.mem_filter.mpr ⟨hc, ?_⟩
    simp [isAlpha, h]
  rw [if_neg]
  intro hco
  exact toUpperStr_ne_self_of_lower hmem h hco.2

/-! ## Claim C3: the smart-capitalization rule -/

/-- C3 counterexample: the rule is not applied to each artist name
independently.  For the artists AC and Bob (code units [65, 67] and
[66, 111, 98]), the code normalizes the already comma-joined string, which
contains a lowercase letter and is therefore fully lowercased (ac, bob),
while per-name application would keep the all-uppercase AC (AC, bob).  Both
implementations of the rule disagree with per-name application. -/
theorem claimC3_counterexample :
    smartCase (joinComma [[65, 67], [66, 111, 98]]) ≠
      joinComma ([[65, 67], [66, 111, 98]].map smartCase)
    ∧ smartLowercase (joinComma [[65, 67], [66, 111, 98]]) ≠
      joinComma ([[65, 67], [66, 111, 98]].map smartLowercase) := by
  constructor <;> decide

/-- C3 (amended): for every string of code units with no lowercase ASCII
letter both normalizers return it unchanged; for every string containing a
lowercase ASCII letter both return its lowercasing; both are idempotent.
The rule is applied to the title and to the comma-joined artist string as a
whole, not to each artist name independently. -/
theorem claimC3_amended :
    (∀ s : JStr, (∀ c ∈ s, isLowerAlpha c = false) →
        smartCase s = s ∧ smartLowercase s = s)
    ∧ (∀ s : JStr, (∃ c ∈ s, isLowerAlpha c = true) →
        smartCase s = toLowerStr s ∧ smartLowercase s = toLowerStr s)
    ∧ (∀ s : JStr, smartCase (smartCase s) = smartCase s)
    ∧ (∀ s : JStr, smartLowercase (smartLowercase s) = smartLowercase s) := by
  refine ⟨?_, ?_, ?_, ?_⟩
  · intro s h
    exact ⟨smartCase_of_no_lower h, smartLowercase_of_no_lower h⟩
  · rintro s ⟨c, hc, hl⟩
    exact ⟨smartCase_of_lower hc hl, smartLowercase_of_lower hc hl⟩
  · intro s
    by_cases h : ∃ c ∈ s, isLowerAlpha c = true
    · rcases h with ⟨c, hc, hl⟩
      rw [smartCase_of_lower hc hl,
        smartCase_of_lower (isLowerAlpha_mem_toLowerStr hc hl) hl, toLowerStr_idem]
    · push_neg at h
      have h' : ∀ c ∈ s, isLowerAlpha c = false := by
        intro c hc
        simpa using h c hc
      rw [smartCase_of_no_lower h', smartCase_of_no_lower h']
  · intro s
    by_cases h : ∃ c ∈ s, isLowerAlpha c = true
    · rcases h with ⟨c, hc, hl⟩
      rw [smartLowercase_of_lower hc hl,
        smartLowercase_of_lower (isLowerAlpha_mem_toLowerStr hc hl) hl, toLowerStr_idem]
    · push_neg at h
      have h' : ∀ c ∈ s, isLowerAlpha c = false := by
        intro c hc
        simpa using h c hc
      rw [smartLowercase_of_no_lower h', smartLowercase_of_no_lower h']

/-- Witness for C3 at concrete strings: hi ([104, 105]) has a lowercase
letter and is lowercased (to itself); AZ! ([65, 90, 33]) has none and is
preserved. -/
theorem claimC3_witness :
    smartCase [104, 105] = toLowerStr [104, 105]
    ∧ smartLowercase [65, 90, 33] = [65, 90, 33] :=
  ⟨(claimC3_amended.2.1 [104, 105] ⟨104, by decide, by decide⟩).1,
    (claimC3_amended.1 [65, 90, 33] (by decide)).2⟩

/-! ## Claim C4: the credential cache -/

/-- C4 counterexample: at now = expiresAt the credential is expired in the
sense of the claim (now < expiresAt fails), so the claim requires a refresh
exchange, yet getSpotifyAccessToken performs none and returns the cached
token: the code tests Date.now() > expiresAt, not Date.now() >= expiresAt. -/
theorem claimC4_counterexample :
    ¬ (5 < ({ spotifyAccessToken := some "tok", spotifyAccessTokenExpiresAt := 5 }
        : TokenCache).spotifyAccessTokenExpiresAt)
    ∧ getSpotifyAccessToken 5 (.ok { access_token := "new", expires_in := some 3600 })
        { spotifyAccessToken := some "tok", spotifyAccessTokenExpiresAt := 5 }
      = ({ spotifyAccessToken := some "tok", spotifyAccessTokenExpiresAt := 5 },
          .ok "tok", 0) :=
  ⟨by decide, rfl⟩

/-- C4 (amended): if the cached token is set (truthy) and now <= expiresAt,
getSpotifyAccessToken returns it and performs no refresh exchange; otherwise
it performs exactly one exchange, caches the returned token, and sets the
expiry to now + providerTtl * 900 milliseconds, which is
now + providerTtl seconds * 1000 * 0.9 (safety factor 0.9).  A cached
credential is thus used exactly while now <= expiresAt. -/
theorem claimC4_amended :
    ∀ (now : Nat) (st : TokenCache) (resp : Except String RefreshResp),
      (tokenFalsy st.spotifyAccessToken = false →
        now ≤ st.spotifyAccessTokenExpiresAt →
        getSpotifyAccessToken now resp st
          = (st, .ok (st.spotifyAccessToken.getD ""), 0))
      ∧ (∀ d : RefreshResp, resp = .ok d →
          (tokenFalsy st.spotifyAccessToken = true
            ∨ st.spotifyAccessTokenExpiresAt < now) →
          getSpotifyAccessToken now resp st
            = ({ spotifyAccessToken := some d.access_token,
                 spotifyAccessTokenExpiresAt := now + ttlOf d * 900 },
                .ok d.access_token, 1)) := by
  intro now st resp
  constructor
  · intro hf hle
    have hcond : (tokenFalsy st.spotifyAccessToken
        || decide (st.spotifyAccessTokenExpiresAt < now)) = false := by
      rw [hf]
      simp only [Bool.false_or, decide_eq_false_iff_not, not_lt]
      exact hle
    simp [getSpotifyAccessToken, hcond]
  · rintro d rfl hexp
    have hcond : (tokenFalsy st.spotifyAccessToken
        || decide (st.spotifyAccessTokenExpiresAt < now)) = true := by
      rcases hexp with h | h
      · simp [h]
      · simp [h]
    simp [getSpotifyAccessToken, hcond, refreshSpotifyToken]

/-- Witness for C4: an unexpired cached token at now = 10 is returned with
no exchange; at now = 11 the same cache is expired, one exchange happens and
the new expiry is 11 + 2 * 900. -/
theorem claimC4_witness :
    getSpotifyAccessToken 10 (.ok { access_token := "t2", expires_in := some 2 })
      { spotifyAccessToken := some "t1", spotifyAccessTokenExpiresAt := 10 }
      = ({ spotifyAccessToken := some "t1", spotifyAccessTokenExpiresAt := 10 },
          .ok "t1", 0)
    ∧ getSpotifyAccessToken 11 (.ok { access_token := "t2", expires_in := some 2 })
      { spotifyAccessToken := some "t1", spotifyAccessTokenExpiresAt := 10 }
      = ({ spotifyAccessToken := some "t2", spotifyAccessTokenExpiresAt := 11 + 2 * 900 },
          .ok "t2", 1) :=
  ⟨(claimC4_amended 10 { spotifyAccessToken := some "t1", spotifyAccessTokenExpiresAt := 10 }
      (.ok { access_token := "t2", expires_in := some 2 })).1 (by decide) (by decide),
    (claimC4_amended 11 { spotifyAccessToken := some "t1", spotifyAccessTokenExpiresAt := 10 }
      (.ok { access_token := "t2", expires_in := some 2 })).2
      { access_token := "t2", expires_in := some 2 } rfl (Or.inr (by decide))⟩

/-! ## Claim C5: refresh coalescing under concurrent callers -/

/-- C5 is violated by the code: getSpotifyAccessToken keeps no in-flight
refresh handle, so three callers whose cache tests all run while the cache
is expired and the first refresh exchange is still in flight (their
completions arrive only afterwards) each start their own exchange: the run
performs 3 refresh exchanges where the claim requires exactly 1. -/
theorem claimC5_bug :
    (runCache 100 [.test, .test, .test,
        .complete { access_token := "t", expires_in := some 3600 },
        .complete { access_token := "t", expires_in := some 3600 },
        .complete { access_token := "t", expires_in := some 3600 }]).exchanges = 3 := by
  rfl

/-! ## Claim C6: the 401 retry of part_001 -/

/-- C6 is violated by the code: with a cached token, when the endpoint
answers 401 to the first request and 401 again to the retry, part_001
fetchSpotifyData refreshes a second time and issues a third request (here
answered 204, yielding a normal idle result) instead of surfacing a fetch
error after the single allowed retry; with only the two 401 responses the
call is still retrying (2 refreshes, no surfaced error).  The inline
comment at line 53 (refresh and retry once) and the claim both require the
second failure to surface an error. -/
theorem claimC6_bug :
    fetchSpotifyDataP1 true 0 [.unauthorized, .unauthorized, .noContent]
      = (2, some (.ok none))
    ∧ fetchSpotifyDataP1 true 0 [.unauthorized, .unauthorized] = (2, none) :=
  ⟨rfl, rfl⟩

/-! ## Claims C7, C8, C10: the adaptive scheduler of part_000 -/

theorem playingUpdate_lastTrackId (st : SchedState) (tid : JStr) :
    (playingUpdate st tid).lastTrackId = some tid := by
  unfold playingUpdate
  split_ifs with h
  · simpa using h
  · rfl

theorem playingUpdate_le (st : SchedState) (tid : JStr) :
    (playingUpdate st tid).currentInterval ≤ 15000 := by
  unfold playingUpdate
  split_ifs
  · show min (st.currentInterval + 1000) 15000 ≤ 15000
    omega
  · show (5000 : Nat) ≤ 15000
    omega

theorem playingUpdate_mono (st : SchedState) (tid : JStr)
    (hid : st.lastTrackId = some tid) (hle : st.currentInterval ≤ 15000) :
    st.currentInterval ≤ (playingUpdate st tid).currentInterval := by
  unfold playingUpdate
  rw [if_pos hid]
  simp only
  omega

/-- C7: across consecutive playing cycles of one unchanged track the chosen
interval never decreases (each cycle after the first starts from an interval
the same-track branch produced, which is at most 15000 and grows toward that
cap), and a cycle whose track differs from the recorded one resets the
interval to the base playing interval of 5000. -/
theorem claimC7 :
    (∀ (st : SchedState) (tid : JStr) (k : Nat), 1 ≤ k →
        (playingIter st tid k).currentInterval
          ≤ (playingIter st tid (k + 1)).currentInterval)
    ∧ (∀ (st : SchedState) (tid : JStr), st.lastTrackId ≠ some tid →
        (updateSpotifyEmbedStep st (.playing tid)).currentInterval = 5000) := by
  constructor
  · intro st tid k hk
    obtain ⟨j, rfl⟩ : ∃ j, k = j + 1 := ⟨k - 1, by omega⟩
    have hstep : playingIter st tid (j + 1)
        = playingUpdate (playingIter st tid j) tid := rfl
    have hid : (playingIter st tid (j + 1)).lastTrackId = some tid := by
      rw [hstep]
      exact playingUpdate_lastTrackId _ tid
    have hle : (playingIter st tid (j + 1)).currentInterval ≤ 15000 := by
      rw [hstep]
      exact playingUpdate_le _ tid
    exact playingUpdate_mono _ tid hid hle
  · intro st tid h
    show (playingUpdate st tid).currentInterval = 5000
    unfold playingUpdate
    rw [if_neg h]

/-- Witness for C7: from the initial state, the intervals chosen by the
first and second cycle of a run playing track [120] are non-decreasing, and
a track unseen before resets the interval to 5000. -/
theorem claimC7_witness :
    (playingIter initialSchedState [120] 1).currentInterval
      ≤ (playingIter initialSchedState [120] 2).currentInterval
    ∧ (updateSpotifyEmbedStep initialSchedState (.playing [120])).currentInterval
      = 5000 :=
  ⟨claimC7.1 initialSchedState [120] 1 (by decide),
    claimC7.2 initialSchedState [120] (by decide)⟩

/-- C8 counterexample: starting from the base state the code yields interval
10000 after one failed cycle and 15000 after two.  Any geometric law
min(base * g ^ k, maxBackoff) with base 5000 that stays below the 30000 cap
must satisfy d1 * d1 = base * d2, but 10000 * 10000 is not 5000 * 15000: the
growth of line 145 is additive (+5000 per failure), not geometric. -/
theorem claimC8_counterexample :
    (failIter initialSchedState 1).currentInterval = 10000
    ∧ (failIter initialSchedState 2).currentInterval = 15000
    ∧ (failIter initialSchedState 1).currentInterval
        * (failIter initialSchedState 1).currentInterval
      ≠ initialSchedState.currentInterval
        * (failIter initialSchedState 2).currentInterval := by
  refine ⟨rfl, rfl, by decide⟩

/-- C8 (amended): after k (at least 1) consecutive failed cycles the
interval equals min(previous + 5000 * k, 30000) - additive growth capped at
30 seconds; the next successful cycle resets to the 5000 base only when the
track changed, while a same-track success moves to min(previous + 1000,
15000) and a successful idle cycle leaves the interval unchanged. -/
theorem claimC8_amended :
    (∀ (st : SchedState) (k : Nat), 1 ≤ k →
        (failIter st k).currentInterval = min (st.currentInterval + 5000 * k) 30000)
    ∧ (∀ (st : SchedState) (tid : JStr), st.lastTrackId ≠ some tid →
        (updateSpotifyEmbedStep st (.playing tid)).currentInterval = 5000
        ∧ (updateSpotifyEmbedStep st (.playing tid)).lastTrackId = some tid)
    ∧ (∀ (st : SchedState) (tid : JStr), st.lastTrackId = some tid →
        (updateSpotifyEmbedStep st (.playing tid)).currentInterval
          = min (st.currentInterval + 1000) 15000)
    ∧ (∀ st : SchedState, updateSpotifyEmbedStep st .notPlaying = st) := by
  refine ⟨?_, ?_, ?_, ?_⟩
  · intro st k hk
    induction k with
    | zero => exact absurd hk (by decide)
    | succ j ih =>
        rcases Nat.eq_zero_or_pos j with h0 | hj
        · subst h0
          show min (st.currentInterval + 5000) 30000
              = min (st.currentInterval + 5000 * 1) 30000
          omega
        · have ihe := ih hj
          show min ((failIter st j).currentInterval + 5000) 30000
              = min (st.currentInterval + 5000 * (j + 1)) 30000
          rw [ihe]
          omega
  · intro st tid h
    show (playingUpdate st tid).currentInterval = 5000
        ∧ (playingUpdate st tid).lastTrackId = some tid
    unfold playingUpdate
    rw [if_neg h]
    exact ⟨rfl, rfl⟩
  · intro st tid h
    show (playingUpdate st tid).currentInterval = _
    unfold playingUpdate
    rw [if_pos h]
  · intro st
    rfl

/-- Witness for C8: two failures from the initial state land on
min(5000 + 5000 * 2, 30000) = 15000; a first track resets to 5000; a
same-track success from the initial state moves to min(5000 + 1000, 15000). -/
theorem claimC8_witness :
    (failIter initialSchedState 2).currentInterval
      = min (initialSchedState.currentInterval + 5000 * 2) 30000
    ∧ (updateSpotifyEmbedStep { currentInterval := 8000, lastTrackId := some [121] }
        (.playing [121])).currentInterval
      = min (8000 + 1000) 15000 :=
  ⟨claimC8_amended.1 initialSchedState 2 (by decide),
    claimC8_amended.2.2.1 { currentInterval := 8000, lastTrackId := some [121] }
      [121] rfl⟩

theorem updateSpotifyEmbedStep_bounds (st : SchedState) (o : CycleOutcome)
    (h1 : 5000 ≤ st.currentInterval) (h2 : st.currentInterval ≤ 30000) :
    5000 ≤ (updateSpotifyEmbedStep st o).currentInterval
    ∧ (updateSpotifyEmbedStep st o).currentInterval ≤ 30000 := by
  cases o with
  | fetchError =>
      show 5000 ≤ min (st.currentInterval + 5000) 30000
          ∧ min (st.currentInterval + 5000) 30000 ≤ 30000
      omega
  | notPlaying => exact ⟨h1, h2⟩
  | playing tid =>
      show 5000 ≤ (playingUpdate st tid).currentInterval
          ∧ (playingUpdate st tid).currentInterval ≤ 30000
      unfold playingUpdate
      split_ifs
      · show 5000 ≤ min (st.currentInterval + 1000) 15000
            ∧ min (st.currentInterval + 1000) 15000 ≤ 30000
        omega
      · show (5000 : Nat) ≤ 5000 ∧ (5000 : Nat) ≤ 30000
        omega
  | playingThenError tid =>
      show 5000 ≤ (errorUpdate (playingUpdate st tid)).currentInterval
          ∧ (errorUpdate (playingUpdate st tid)).currentInterval ≤ 30000
      unfold errorUpdate playingUpdate
      split_ifs
      · show 5000 ≤ min (min (st.currentInterval + 1000) 15000 + 5000) 30000
            ∧ min (min (st.currentInterval + 1000) 15000 + 5000) 30000 ≤ 30000
        omega
      · show 5000 ≤ min (5000 + 5000) 30000
            ∧ min (5000 + 5000) 30000 ≤ 30000
        omega

theorem foldl_step_bounds :
    ∀ (outs : List CycleOutcome) (st : SchedState),
      5000 ≤ st.currentInterval → st.currentInterval ≤ 30000 →
      5000 ≤ (outs.foldl updateSpotifyEmbedStep st).currentInterval
      ∧ (outs.foldl updateSpotifyEmbedStep st).currentInterval ≤ 30000 := by
  intro outs
  induction outs with
  | nil => intro st h1 h2; exact ⟨h1, h2⟩
  | cons o rest ih =>
      intro st h1 h2
      have hb := updateSpotifyEmbedStep_bounds st o h1 h2
      exact ih _ hb.1 hb.2

/-- C10: along every sequence of cycle outcomes, the interval handed to the
next scheduled cycle stays between 5000 and 30000 milliseconds inclusive:
the initial value is 5000, the same-track growth caps at 15000, the
new-track reset is 5000, and the error growth caps at 30000, so the loop
never polls faster than every 5 seconds nor waits longer than 30. -/
theorem claimC10 :
    ∀ outs : List CycleOutcome,
      5000 ≤ (outs.foldl updateSpotifyEmbedStep initialSchedState).currentInterval
      ∧ (outs.foldl updateSpotifyEmbedStep initialSchedState).currentInterval
        ≤ 30000 :=
  fun outs => foldl_step_bounds outs initialSchedState (by decide) (by decide)

/-! ## Claims C1, C2, C9: message reconciliation -/

/-- C1 counterexample: a reconcile cycle whose fetch found nothing playing
(Idle) and whose stored message id no longer resolves performs no send at
all and leaves the dead id stored (lines 127-133 only ever edit), instead of
clearing it and creating exactly one new artifact as the claim requires of
every reconcile call with an unresolvable stored id. -/
theorem claimC1_counterexample :
    updateSpotifyMessage (.ok none)
        { messagesFetch := .error .not_found, msgEdit := .ok (), channelSend := .ok 99 }
        (some 7)
      = (noEffects, none)
    ∧ scheduleNextUpdateId (updateSpotifyMessage (.ok none)
        { messagesFetch := .error .not_found, msgEdit := .ok (), channelSend := .ok 99 }
        (some 7)).2 (some 7) = some 7 :=
  ⟨rfl, rfl⟩

/-- C1 (amended): when the fetched state is playing and the stored id does
not resolve, reconcile sends exactly one new message (and edits none),
returns its id, and the scheduler stores it; the part_000 variant likewise
stores the id of the one newly sent message.  When the fetched state is
Idle, an unresolvable stored id is left in place and nothing is sent. -/
theorem claimC1_amended :
    (∀ (d : SpotifyData) (mid nid : MsgId) (e : MessagingError)
        (edit : Except MessagingError Unit),
      updateSpotifyMessage (.ok (some d))
          { messagesFetch := .error e, msgEdit := edit, channelSend := .ok nid }
          (some mid)
        = ({ edited := none, sent := some (nid, createEmbed (some d)) }, some nid)
      ∧ scheduleNextUpdateId (updateSpotifyMessage (.ok (some d))
          { messagesFetch := .error e, msgEdit := edit, channelSend := .ok nid }
          (some mid)).2 (some mid) = some nid)
    ∧ (∀ (mid nid : MsgId) (e : MessagingError) (edit : Except MessagingError Unit),
      updateSpotifyEmbedReconcile (some mid) (.error e) edit (.ok nid)
        = (some nid, some nid, false))
    ∧ (∀ (env : SurfaceEnv) (mid : MsgId) (e : MessagingError),
        env.messagesFetch = .error e →
        (updateSpotifyMessage (.ok none) env (some mid)).1.sent = none
        ∧ scheduleNextUpdateId
            (updateSpotifyMessage (.ok none) env (some mid)).2 (some mid) = some mid) := by
  refine ⟨?_, ?_, ?_⟩
  · intro d mid nid e edit
    exact ⟨rfl, rfl⟩
  · intro mid nid e edit
    rfl
  · intro env mid e h
    rcases env with ⟨mf, me, cs⟩
    simp only at h
    subst h
    exact ⟨rfl, rfl⟩

/-- Witness for C1 at concrete values: fetch of stored id 2 fails with a
generic error during an Idle cycle; nothing is sent and id 2 stays. -/
theorem claimC1_witness :
    (updateSpotifyMessage (.ok none)
        { messagesFetch := .error .other, msgEdit := .ok (), channelSend := .ok 3 }
        (some 2)).1.sent = none
    ∧ scheduleNextUpdateId (updateSpotifyMessage (.ok none)
        { messagesFetch := .error .other, msgEdit := .ok (), channelSend := .ok 3 }
        (some 2)).2 (some 2) = some 2 :=
  claimC1_amended.2.2
    { messagesFetch := .error .other, msgEdit := .ok (), channelSend := .ok 3 }
    2 .other rfl

/-- C2 counterexample: a no-content response does map to Idle, but the first
reconcile of Idle with no stored id creates nothing at all (lines 127-133
return without sending), not the one idle-rendered artifact the claim
asserts. -/
theorem claimC2_counterexample :
    fetchSpotifyData 0 .noContent = .ok none
    ∧ updateSpotifyMessage (.ok none)
        { messagesFetch := .ok (), msgEdit := .ok (), channelSend := .ok 11 } none
      = (noEffects, none) :=
  ⟨rfl, rfl⟩

/-- C2 (amended): a no-content status yields Idle, not a failure; a
reconcile of Idle with no stored id performs no effect and returns no id
(the first artifact is only created once something is playing); a reconcile
of Idle with a stored id that resolves edits that very message with the
idle embed, creates nothing, and the scheduler keeps the same id. -/
theorem claimC2_amended :
    (∀ now : Nat, fetchSpotifyData now .noContent = .ok none)
    ∧ (∀ env : SurfaceEnv,
        updateSpotifyMessage (.ok none) env none = (noEffects, none))
    ∧ (∀ (env : SurfaceEnv) (mid : MsgId),
        env.messagesFetch = .ok () → env.msgEdit = .ok () →
        updateSpotifyMessage (.ok none) env (some mid)
          = ({ edited := some (mid, createEmbed none), sent := none }, none)
        ∧ scheduleNextUpdateId
            (updateSpotifyMessage (.ok none) env (some mid)).2 (some mid) = some mid) := by
  refine ⟨?_, ?_, ?_⟩
  · intro now
    rfl
  · intro env
    rfl
  · intro env mid h1 h2
    rcases env with ⟨mf, me, cs⟩
    simp only at h1 h2
    subst h1
    subst h2
    exact ⟨rfl, rfl⟩

/-- Witness for C2 at concrete values: an Idle cycle with stored id 4 that
resolves edits message 4 with the idle embed and keeps id 4. -/
theorem claimC2_witness :
    updateSpotifyMessage (.ok none)
        { messagesFetch := .ok (), msgEdit := .ok (), channelSend := .ok 5 } (some 4)
      = ({ edited := some (4, createEmbed none), sent := none }, none)
    ∧ scheduleNextUpdateId (updateSpotifyMessage (.ok none)
        { messagesFetch := .ok (), msgEdit := .ok (), channelSend := .ok 5 }
        (some 4)).2 (some 4) = some 4 :=
  claimC2_amended.2.2
    { messagesFetch := .ok (), msgEdit := .ok (), channelSend := .ok 5 } 4 rfl rfl

/-- C9 counterexample: a messaging error other than not-found while locating
the stored message is swallowed by the catch of line 139 exactly like a
not-found, so reconcile falls into the recreate path: a new message (id 21)
is sent and replaces the stored id 20, which the claim forbids for errors
other than not-found. -/
theorem claimC9_counterexample :
    scheduleNextUpdateId (updateSpotifyMessage (.ok (some samplePlayingData))
        { messagesFetch := .error .other, msgEdit := .ok (), channelSend := .ok 21 }
        (some 20)).2 (some 20) = some 21
    ∧ (updateSpotifyMessage (.ok (some samplePlayingData))
        { messagesFetch := .error .other, msgEdit := .ok (), channelSend := .ok 21 }
        (some 20)).1.sent
      = some (21, createEmbed (some samplePlayingData)) :=
  ⟨rfl, rfl⟩

/-- C9 (amended): every exception of the cycle body is absorbed by the catch
of lines 149-151: the caller receives undefined and the scheduler keeps the
previous stored id, so an edit failure or a send failure leaves the stored
id unchanged for retry; but a failure while locating the stored message,
not-found or any other error alike, routes into the recreate path, and a
successful send there replaces the stored id. -/
theorem claimC9_amended :
    (∀ (f : Except String (Option SpotifyData)) (env : SurfaceEnv)
        (mid : Option MsgId) (e : CycleError),
      (updateSpotifyMessageTry f env mid).2 = .error e →
      (updateSpotifyMessage f env mid).2 = none
      ∧ scheduleNextUpdateId (updateSpotifyMessage f env mid).2 mid = mid)
    ∧ (∀ (d : SpotifyData) (env : SurfaceEnv) (mid : MsgId) (e : MessagingError),
        env.messagesFetch = .ok () → env.msgEdit = .error e →
        scheduleNextUpdateId
          (updateSpotifyMessage (.ok (some d)) env (some mid)).2 (some mid) = some mid)
    ∧ (∀ (d : SpotifyData) (env : SurfaceEnv) (mid : Option MsgId)
        (e : MessagingError), env.channelSend = .error e →
        scheduleNextUpdateId
          (updateSpotifyMessage (.ok (some d)) env mid).2 mid = mid)
    ∧ (∀ (d : SpotifyData) (env : SurfaceEnv) (mid nid : MsgId),
        env.messagesFetch = .error .other → env.channelSend = .ok nid →
        (updateSpotifyMessage (.ok (some d)) env (some mid)).2 = some nid) := by
  refine ⟨?_, ?_, ?_, ?_⟩
  · intro f env mid e h
    constructor
    · show (match (updateSpotifyMessageTry f env mid).2 with
          | .ok v => v | .error _ => none) = none
      rw [h]
    · show scheduleNextUpdateId (match (updateSpotifyMessageTry f env mid).2 with
          | .ok v => v | .error _ => none) mid = mid
      rw [h]
      rfl
  · intro d env mid e h1 h2
    rcases env with ⟨mf, me, cs⟩
    simp only at h1 h2
    subst h1
    subst h2
    rfl
  · intro d env mid e h
    rcases env with ⟨mf, me, cs⟩
    simp only at h
    subst h
    cases mid with
    | none => rfl
    | some m =>
        cases mf with
        | ok u => cases me with
            | ok u2 => rfl
            | error e2 => rfl
        | error e1 => rfl
  · intro d env mid nid h1 h2
    rcases env with ⟨mf, me, cs⟩
    simp only at h1 h2
    subst h1
    subst h2
    rfl

/-- Witness for C9 at concrete values: a cycle whose status fetch threw is
absorbed, the caller sees undefined and the stored id 9 is retried; an edit
failure on stored id 8 keeps id 8. -/
theorem claimC9_witness :
    ((updateSpotifyMessage (.error "boom")
        { messagesFetch := .ok (), msgEdit := .ok (), channelSend := .ok 1 }
        (some 9)).2 = none
      ∧ scheduleNextUpdateId (updateSpotifyMessage (.error "boom")
          { messagesFetch := .ok (), msgEdit := .ok (), channelSend := .ok 1 }
          (some 9)).2 (some 9) = some 9)
    ∧ scheduleNextUpdateId (updateSpotifyMessage (.ok (some samplePlayingData))
        { messagesFetch := .ok (), msgEdit := .error .other, channelSend := .ok 1 }
        (some 8)).2 (some 8) = some 8 :=
  ⟨claimC9_amended.1 (.error "boom")
      { messagesFetch := .ok (), msgEdit := .ok (), channelSend := .ok 1 }
      (some 9) (.fetchFailed "boom") rfl,
    claimC9_amended.2.1 samplePlayingData
      { messagesFetch := .ok (), msgEdit := .error .other, channelSend := .ok 1 }
      8 .other rfl rfl⟩

end SpotifyTracker
